import Mathlib

/-!
Shallow embedding of `src/playlist_art_sync.py` (class `PlaylistArtSync`):
fuzzy name matching (`find_matching_playlist`), artwork download with
retry (`download_playlist_artwork`), and the sync orchestrator
(`sync_artwork`), together with theorems about their behaviour.
-/

/-- Length of a longest common subsequence of two character lists, with
explicit fuel so the recursion is structural.  Fuel `xs.length + ys.length`
always suffices, since every recursive call shortens the combined input
and an empty side yields 0 regardless of the fuel. -/
def lcsFuel : Nat → List Char → List Char → Nat
  | 0, _, _ => 0
  | _ + 1, [], _ => 0
  | _ + 1, _ :: _, [] => 0
  | fuel + 1, a :: as, b :: bs =>
    if a = b then lcsFuel fuel as bs + 1
    else max (lcsFuel fuel (a :: as) bs) (lcsFuel fuel as (b :: bs))

/-- Length of a longest common subsequence of two character lists. -/
def lcs (xs ys : List Char) : Nat := lcsFuel (xs.length + ys.length) xs ys

/-- Round-half-to-even of the fraction `num / den`, as Python `round` does. -/
def pyRound (num den : Nat) : Nat :=
  let q := num / den
  let r := num % den
  if 2 * r < den then q
  else if den < 2 * r then q + 1
  else if q % 2 = 0 then q else q + 1

/-- Models `fuzz.ratio` from the external fuzzywuzzy library, called at
`playlist_art_sync.py:77`: the 0-100 indel similarity
`round(100 * (lensum - dist(s, t)) / lensum)` with `lensum = |s| + |t|`,
using the identity `lensum - dist(s, t) = 2 * lcs(s, t)`;
two empty strings score 100. -/
def similarity (s t : String) : Nat :=
  let lensum := s.length + t.length
  if lensum = 0 then 100 else pyRound (200 * lcs s.data t.data) lensum

/-- Python `str.lower()`, character by character (`Char.toLower` lowers the
ASCII range, which covers every name appearing in the claims). -/
def strLower (s : String) : String := ⟨s.data.map Char.toLower⟩

/-- The score `find_matching_playlist` assigns to a (name, candidate) pair:
`fuzz.ratio(name.lower(), playlist_name.lower())` (line 77). -/
def fuzzScore (name cand : String) : Nat :=
  similarity (strLower name) (strLower cand)

/-- The loop of `find_matching_playlist` (lines 73-81), carrying the
`best_match` / `best_score` running state over the candidate list.
A Python dict iterates its keys in insertion order, so the dict is
embedded as an association list with distinct keys. -/
def fmpLoop (threshold : Nat) (name : String) :
    List (String × String) → Option String → Nat → Option String
  | [], best_match, _ => best_match
  | (playlist_name, pid) :: rest, best_match, best_score =>
    let score := fuzzScore name playlist_name
    if best_score < score ∧ threshold ≤ score then
      fmpLoop threshold name rest (some pid) score
    else
      fmpLoop threshold name rest best_match best_score

/-- `PlaylistArtSync.find_matching_playlist` (lines 62-84): fuzzy-match
`name` against the candidate mapping, returning the stored id of the best
candidate found (the `if best_match:` on line 82 only guards logging). -/
def find_matching_playlist (threshold : Nat) (name : String)
    (playlists_dict : List (String × String)) : Option String :=
  fmpLoop threshold name playlists_dict none 0

/-- The maximum fuzz score of `name` over the candidate list (0 when empty). -/
def maxScore (name : String) : List (String × String) → Nat
  | [] => 0
  | (playlist_name, _) :: rest =>
    max (fuzzScore name playlist_name) (maxScore name rest)

/-- The id of the first candidate whose fuzz score against `name` equals `v`. -/
def firstWithScore (name : String) (v : Nat) :
    List (String × String) → Option String
  | [] => none
  | (playlist_name, pid) :: rest =>
    if fuzzScore name playlist_name = v then some pid
    else firstWithScore name v rest

lemma fmpLoop_eq (threshold : Nat) (name : String) (l : List (String × String)) :
    ∀ best_match best_score,
      fmpLoop threshold name l best_match best_score =
        if best_score < maxScore name l ∧ threshold ≤ maxScore name l then
          firstWithScore name (maxScore name l) l
        else best_match := by
  induction l with
  | nil =>
    intro best_match best_score
    simp [fmpLoop, maxScore]
  | cons head rest ih =>
    obtain ⟨playlist_name, pid⟩ := head
    intro best_match best_score
    simp only [fmpLoop, maxScore, firstWithScore]
    rw [ih, ih]
    rcases Nat.le_total (fuzzScore name playlist_name) (maxScore name rest) with hle | hle
    · rw [Nat.max_eq_right hle]
      split_ifs <;> first | rfl | omega
    · rw [Nat.max_eq_left hle]
      split_ifs <;> first | rfl | omega

lemma firstWithScore_maxScore (name : String) (l : List (String × String))
    (h : maxScore name l ≠ 0) :
    ∃ i, firstWithScore name (maxScore name l) l = some i := by
  induction l with
  | nil => simp [maxScore] at h
  | cons head rest ih =>
    obtain ⟨playlist_name, pid⟩ := head
    simp only [maxScore] at h ⊢
    simp only [firstWithScore]
    rcases Nat.le_total (fuzzScore name playlist_name) (maxScore name rest) with hle | hle
    · rw [Nat.max_eq_right hle] at h ⊢
      by_cases he : fuzzScore name playlist_name = maxScore name rest
      · rw [if_pos he]; exact ⟨pid, rfl⟩
      · rw [if_neg he]; exact ih h
    · rw [Nat.max_eq_left hle] at h ⊢
      rw [if_pos rfl]; exact ⟨pid, rfl⟩

/-- Claim C1, counterexample: with threshold 0, name `"a"` and the single
candidate `("b", "x")`, the highest score is `fuzzScore "a" "b" = 0`, which
meets the threshold (`0 ≥ 0`), yet `find_matching_playlist` returns `none`
rather than `some "x"`: the loop's `score > best_score` test (line 78, with
`best_score` initialised to 0) also demands a strictly positive score. -/
theorem find_matching_playlist_c1_counterexample :
    ¬ (find_matching_playlist 0 "a" [("b", "x")] = some "x" ↔
        0 ≤ maxScore "a" [("b", "x")]) := by
  decide

/-- Claim C1, amended: for every threshold `T`, name `n` and candidate
mapping, `find_matching_playlist` returns the id of the first candidate
attaining the highest case-insensitive similarity score if and only if that
score is `≥ T` and strictly positive; it returns `none` if and only if no
candidate has a positive score meeting `T` (in particular, the empty mapping
yields `none`). -/
theorem find_matching_playlist_correct (threshold : Nat) (name : String)
    (ps : List (String × String)) :
    (find_matching_playlist threshold name ps =
      if 0 < maxScore name ps ∧ threshold ≤ maxScore name ps then
        firstWithScore name (maxScore name ps) ps
      else none)
    ∧ (ps = [] → find_matching_playlist threshold name ps = none)
    ∧ (0 < maxScore name ps →
        ∃ i, firstWithScore name (maxScore name ps) ps = some i) := by
  refine ⟨?_, ?_, ?_⟩
  · rw [find_matching_playlist, fmpLoop_eq]
  · rintro rfl; rfl
  · intro h; exact firstWithScore_maxScore name ps (by omega)

/-- Witness for `find_matching_playlist_correct` at concrete inputs. -/
theorem find_matching_playlist_correct_witness :
    find_matching_playlist 85 "a" [] = none ∧
    find_matching_playlist 85 " Road Trip" [("road trip", "sp1")] = some "sp1" ∧
    (∃ i, firstWithScore " Road Trip"
        (maxScore " Road Trip" [("road trip", "sp1")]) [("road trip", "sp1")] =
          some i) := by
  refine ⟨(find_matching_playlist_correct 85 "a" []).2.1 rfl, ?_,
    (find_matching_playlist_correct 85 " Road Trip" [("road trip", "sp1")]).2.2
      (by decide)⟩
  have h := (find_matching_playlist_correct 85 " Road Trip"
    [("road trip", "sp1")]).1
  rw [h]
  decide

/-- Claim C7, counterexample: the matcher scores the pair
`(" Road Trip", "road trip")` at 95, not 100: lowercasing does not remove
the leading space, and `fuzz.ratio(" road trip", "road trip")` is
`round(100 * 18 / 19) = 95`. -/
theorem fuzzScore_c7_counterexample :
    fuzzScore " Road Trip" "road trip" = 95 ∧
    fuzzScore " Road Trip" "road trip" ≠ 100 := by
  decide

/-- Claim C7, amended: the matcher's similarity score is case-insensitive
(it depends only on the lowercased strings), and the pair
`(" Road Trip", "road trip")` scores 95, which still exceeds the default
threshold 85, so the matcher resolves it. -/
theorem fuzzScore_case_insensitive :
    (∀ a b a' b' : String, strLower a = strLower a' → strLower b = strLower b' →
      fuzzScore a b = fuzzScore a' b')
    ∧ fuzzScore " Road Trip" "road trip" = 95
    ∧ find_matching_playlist 85 " Road Trip" [("road trip", "sp1")] =
        some "sp1" := by
  refine ⟨?_, by decide, by decide⟩
  intro a b a' b' h1 h2
  simp only [fuzzScore, h1, h2]

/-- Witness for `fuzzScore_case_insensitive` at concrete inputs. -/
theorem fuzzScore_case_insensitive_witness :
    fuzzScore " Road Trip" "road trip" = fuzzScore " ROAD TRIP" "Road Trip" :=
  fuzzScore_case_insensitive.1 " Road Trip" "road trip" " ROAD TRIP" "Road Trip"
    (by decide) (by decide)

/-- Outcome of one HTTP attempt in `download_playlist_artwork`
(lines 98-109): `success img` when `requests.get` returns 2xx and
`Image.open` decodes the body to image `img`; `transient` when a
`requests.exceptions.RequestException` is raised (non-2xx status via
`raise_for_status`, connection error, timeout); `decodeFail` when a
non-network exception is raised while decoding the body. -/
inductive AttemptOutcome where
  | success : Nat → AttemptOutcome
  | transient : AttemptOutcome
  | decodeFail : AttemptOutcome
deriving DecidableEq

/-- Observable behaviour of one call to `download_playlist_artwork`:
the returned value, how many HTTP attempts were made, and the list of
`time.sleep` durations in order. -/
structure DownloadTrace where
  result : Option Nat
  attempts : Nat
  sleeps : List Nat
deriving DecidableEq

/-- The `for attempt in range(max_retries)` loop of
`download_playlist_artwork` (lines 97-110).  `attempt` is the 0-indexed
loop counter and `remaining = max_retries - attempt` the number of loop
iterations left (made explicit so the recursion is structural).
On `transient` the loop sleeps `2 ** attempt` only when
`attempt < max_retries - 1` (line 104) and continues; on `decodeFail`
the function returns `None` at once (line 109); after the loop it
returns `None` (line 110). -/
def dlRun (env : Nat → AttemptOutcome) (max_retries : Nat) :
    Nat → Nat → DownloadTrace
  | _, 0 => ⟨none, 0, []⟩
  | attempt, remaining + 1 =>
    match env attempt with
    | .success img => ⟨some img, 1, []⟩
    | .decodeFail => ⟨none, 1, []⟩
    | .transient =>
      if attempt < max_retries - 1 then
        let rest := dlRun env max_retries (attempt + 1) remaining
        ⟨rest.result, rest.attempts + 1, 2 ^ attempt :: rest.sleeps⟩
      else ⟨none, 1, []⟩

/-- `PlaylistArtSync.download_playlist_artwork` (lines 86-110), with the
per-attempt HTTP/decoding behaviour abstracted as `env`. -/
def download_playlist_artwork (env : Nat → AttemptOutcome)
    (max_retries : Nat) : DownloadTrace :=
  dlRun env max_retries 0 max_retries

lemma dlRun_all_transient (env : Nat → AttemptOutcome) (m : Nat) :
    ∀ remaining attempt, attempt + remaining = m →
      (∀ i, attempt ≤ i → i < m → env i = AttemptOutcome.transient) →
      dlRun env m attempt remaining =
        ⟨none, remaining, (List.range' attempt (remaining - 1)).map
          (fun i => 2 ^ i)⟩ := by
  intro remaining
  induction remaining with
  | zero => intro attempt _ _; rfl
  | succ r ih =>
    intro attempt hsum htrans
    have ht : env attempt = AttemptOutcome.transient :=
      htrans attempt le_rfl (by omega)
    simp only [dlRun, ht]
    by_cases hc : attempt < m - 1
    · rw [if_pos hc, ih (attempt + 1) (by omega)
        (fun i h1 h2 => htrans i (by omega) h2)]
      obtain ⟨r', rfl⟩ : ∃ r', r = r' + 1 := ⟨r - 1, by omega⟩
      simp only [Nat.add_sub_cancel]
      rw [List.range'_succ]
      rfl
    · rw [if_neg hc]
      have hr : r = 0 := by omega
      subst hr
      rfl

lemma dlRun_success (env : Nat → AttemptOutcome) (m k img : Nat) :
    ∀ remaining attempt, attempt + remaining = m → attempt ≤ k → k < m →
      (∀ i, attempt ≤ i → i < k → env i = AttemptOutcome.transient) →
      env k = AttemptOutcome.success img →
      dlRun env m attempt remaining =
        ⟨some img, k - attempt + 1,
          (List.range' attempt (k - attempt)).map (fun i => 2 ^ i)⟩ := by
  intro remaining
  induction remaining with
  | zero => intro attempt h1 h2 h3 _ _; omega
  | succ r ih =>
    intro attempt hsum hak hkm htrans hsucc
    by_cases he : attempt = k
    · subst he
      simp only [dlRun, hsucc, Nat.sub_self, List.range'_zero, List.map_nil]
    · have ha : env attempt = AttemptOutcome.transient :=
        htrans attempt le_rfl (by omega)
      simp only [dlRun, ha]
      have hc : attempt < m - 1 := by omega
      rw [if_pos hc, ih (attempt + 1) (by omega) (by omega) hkm
        (fun i h1 h2 => htrans i (by omega) h2) hsucc]
      obtain ⟨d, hd⟩ : ∃ d, k - attempt = d + 1 := ⟨k - attempt - 1, by omega⟩
      have h1 : k - (attempt + 1) = d := by omega
      rw [h1, hd, List.range'_succ]
      rfl

lemma dlRun_decodeFail (env : Nat → AttemptOutcome) (m k : Nat) :
    ∀ remaining attempt, attempt + remaining = m → attempt ≤ k → k < m →
      (∀ i, attempt ≤ i → i < k → env i = AttemptOutcome.transient) →
      env k = AttemptOutcome.decodeFail →
      dlRun env m attempt remaining =
        ⟨none, k - attempt + 1,
          (List.range' attempt (k - attempt)).map (fun i => 2 ^ i)⟩ := by
  intro remaining
  induction remaining with
  | zero => intro attempt h1 h2 h3 _ _; omega
  | succ r ih =>
    intro attempt hsum hak hkm htrans hdec
    by_cases he : attempt = k
    · subst he
      simp only [dlRun, hdec, Nat.sub_self, List.range'_zero, List.map_nil]
    · have ha : env attempt = AttemptOutcome.transient :=
        htrans attempt le_rfl (by omega)
      simp only [dlRun, ha]
      have hc : attempt < m - 1 := by omega
      rw [if_pos hc, ih (attempt + 1) (by omega) (by omega) hkm
        (fun i h1 h2 => htrans i (by omega) h2) hdec]
      obtain ⟨d, hd⟩ : ∃ d, k - attempt = d + 1 := ⟨k - attempt - 1, by omega⟩
      have h1 : k - (attempt + 1) = d := by omega
      rw [h1, hd, List.range'_succ]
      rfl

lemma pairwise_le_pow_range' (a n : Nat) :
    ((List.range' a n).map (fun i => (2 : Nat) ^ i)).Pairwise (· ≤ ·) := by
  refine List.Pairwise.map _ (fun x y hxy => ?_) (List.pairwise_lt_range' a n)
  exact Nat.pow_le_pow_right (by omega) (Nat.le_of_lt hxy)

/-- Claim C2: if every attempt up to `max_retries` fails transiently, the
download makes exactly `max_retries` attempts, sleeping `2 ^ attempt`
after each failed attempt other than the last (`max_retries - 1`
non-decreasing waits `[2^0, …, 2^(max_retries - 2)]`), and returns no
artwork; and if the first `k` attempts fail transiently and attempt `k`
succeeds with image `img`, it returns `some img` after exactly `k + 1`
attempts. -/
theorem download_retry_spec (env : Nat → AttemptOutcome) (max_retries : Nat) :
    ((∀ i, i < max_retries → env i = AttemptOutcome.transient) →
      download_playlist_artwork env max_retries =
        ⟨none, max_retries,
          (List.range (max_retries - 1)).map (fun i => 2 ^ i)⟩
      ∧ (download_playlist_artwork env max_retries).sleeps.Pairwise (· ≤ ·))
    ∧ (∀ k img, k < max_retries →
        (∀ i, i < k → env i = AttemptOutcome.transient) →
        env k = AttemptOutcome.success img →
        download_playlist_artwork env max_retries =
          ⟨some img, k + 1, (List.range k).map (fun i => 2 ^ i)⟩) := by
  constructor
  · intro h
    have he := dlRun_all_transient env max_retries max_retries 0 (by omega)
      (fun i _ hi => h i hi)
    rw [download_playlist_artwork, he]
    constructor
    · rw [List.range_eq_range']
    · exact pairwise_le_pow_range' 0 (max_retries - 1)
  · intro k img hk ht hs
    have he := dlRun_success env max_retries k img max_retries 0 (by omega)
      (by omega) hk (fun i _ h2 => ht i h2) hs
    rw [download_playlist_artwork, he, List.range_eq_range', Nat.sub_zero]

/-- Witness for `download_retry_spec`: three persistent transient failures
give `(none, 3 attempts, sleeps [1, 2])`; an immediate success returns the
image after one attempt with no sleeps. -/
theorem download_retry_spec_witness :
    download_playlist_artwork (fun _ => AttemptOutcome.transient) 3 =
      ⟨none, 3, [1, 2]⟩ ∧
    download_playlist_artwork (fun _ => AttemptOutcome.success 7) 3 =
      ⟨some 7, 1, []⟩ := by
  constructor
  · exact ((download_retry_spec (fun _ => AttemptOutcome.transient) 3).1
      (fun i _ => rfl)).1
  · exact (download_retry_spec (fun _ => AttemptOutcome.success 7) 3).2 0 7
      (by omega) (fun i hi => absurd hi (by omega)) rfl

/-- Claim C6: if the first `k` attempts fail transiently and attempt `k`
raises a non-network error while decoding the body, the download returns
`none` at once after `k + 1` attempts, with no further attempts and no
backoff wait after the decoding failure (the sleeps are exactly those of
the `k` earlier transient failures), however many attempts remain. -/
theorem download_decode_abort (env : Nat → AttemptOutcome)
    (max_retries k : Nat) (hk : k < max_retries)
    (ht : ∀ i, i < k → env i = AttemptOutcome.transient)
    (hd : env k = AttemptOutcome.decodeFail) :
    download_playlist_artwork env max_retries =
      ⟨none, k + 1, (List.range k).map (fun i => 2 ^ i)⟩ := by
  have he := dlRun_decodeFail env max_retries k max_retries 0 (by omega)
    (by omega) hk (fun i _ h2 => ht i h2) hd
  rw [download_playlist_artwork, he, List.range_eq_range', Nat.sub_zero]

/-- Witness for `download_decode_abort`: a decode failure on the very
first attempt of three returns `none` after one attempt with no sleeps. -/
theorem download_decode_abort_witness :
    download_playlist_artwork (fun _ => AttemptOutcome.decodeFail) 3 =
      ⟨none, 1, []⟩ :=
  download_decode_abort (fun _ => AttemptOutcome.decodeFail) 3 0 (by omega)
    (fun i hi => absurd hi (by omega)) rfl

/-- One playlist record from the Apple Music listing, as `sync_artwork`
reads it: `apple_playlist['name']` (line 127) and
`apple_playlist['artwork']['url']` (line 136); `artwork_url = none` models
a record without the artwork key, whose access raises `KeyError`. -/
structure ApplePlaylist where
  name : String
  artwork_url : Option String
deriving DecidableEq

/-- The external collaborators of `sync_artwork`: the two listing fetches
(line 115-116, `Except.error` = the call raises), the per-URL per-attempt
HTTP behaviour feeding `download_playlist_artwork` (line 137), the JPEG
re-encode `artwork.convert('RGB').save(..., format='JPEG')`
(lines 145-147, `none` = the conversion raises), and
`spotify.playlist_upload_cover_image` (line 149, `false` = the upload
raises). -/
structure SyncEnv where
  applePlaylists : Except String (List ApplePlaylist)
  spotifyPlaylists : Except String (List (String × String))
  attempts : String → Nat → AttemptOutcome
  reencode : Nat → Option Nat
  upload : String → Nat → Bool

/-- Python dict insertion: overwrite the value of an existing key in place,
otherwise append the new binding (insertion order preserved). -/
def dictInsert (d : List (String × String)) (k v : String) :
    List (String × String) :=
  if d.any (fun q => q.1 == k) then
    d.map (fun q => if q.1 = k then (k, v) else q)
  else d ++ [(k, v)]

/-- The dict comprehension building `spotify_dict` (lines 118-121):
`{playlist['name']: playlist['id'] for playlist in spotify_playlists['items']}`
(last-write-wins on duplicate names). -/
def buildDict (items : List (String × String)) : List (String × String) :=
  items.foldl (fun d q => dictInsert d q.1 q.2) []

/-- Observable behaviour of one iteration of the `for apple_playlist` loop
(lines 126-156): whether `success_count` was incremented, and which
downloads, re-encodes and uploads were attempted for this item. -/
structure ItemTrace where
  ok : Bool
  downloads : List String
  reencodes : List Nat
  uploads : List (String × Nat)
deriving DecidableEq

/-- The body of the per-playlist loop of `sync_artwork` (lines 128-156):
no match or falsy id (lines 129-134) fails with nothing attempted; a
missing artwork key (line 136) raises `KeyError`, caught by the item-level
`except` (line 153); a failed download (lines 139-142) fails after the
download attempt; an exception while re-encoding (lines 145-147) or
uploading (line 149) is caught by the item-level `except`; otherwise the
item succeeds. -/
def processItem (threshold : Nat) (env : SyncEnv)
    (dict : List (String × String)) (p : ApplePlaylist) : ItemTrace :=
  match find_matching_playlist threshold p.name dict with
  | none => ⟨false, [], [], []⟩
  | some spotify_playlist_id =>
    if spotify_playlist_id = "" then ⟨false, [], [], []⟩
    else
      match p.artwork_url with
      | none => ⟨false, [], [], []⟩
      | some url =>
        match (download_playlist_artwork (env.attempts url) 3).result with
        | none => ⟨false, [url], [], []⟩
        | some artwork =>
          match env.reencode artwork with
          | none => ⟨false, [url], [artwork], []⟩
          | some jpeg =>
            if env.upload spotify_playlist_id jpeg then
              ⟨true, [url], [artwork], [(spotify_playlist_id, jpeg)]⟩
            else
              ⟨false, [url], [artwork], [(spotify_playlist_id, jpeg)]⟩

/-- Running state of `sync_artwork`'s loop: the two counters (lines
123-124) plus the accumulated traces of attempted effects. -/
structure RunState where
  success_count : Nat
  fail_count : Nat
  downloads : List String
  reencodes : List Nat
  uploads : List (String × Nat)
deriving DecidableEq

/-- One loop iteration: exactly one of the two counters grows by one
(lines 133, 141, 151, 155), and the item's effect traces are appended. -/
def stepItem (threshold : Nat) (env : SyncEnv) (dict : List (String × String))
    (st : RunState) (p : ApplePlaylist) : RunState :=
  let t := processItem threshold env dict p
  ⟨st.success_count + (if t.ok then 1 else 0),
   st.fail_count + (if t.ok then 0 else 1),
   st.downloads ++ t.downloads,
   st.reencodes ++ t.reencodes,
   st.uploads ++ t.uploads⟩

/-- The `for apple_playlist in apple_playlists` loop (lines 126-156). -/
def syncLoop (threshold : Nat) (env : SyncEnv) (dict : List (String × String))
    (ps : List ApplePlaylist) (st : RunState) : RunState :=
  ps.foldl (stepItem threshold env dict) st

/-- Observable behaviour of one call to `sync_artwork`: the propagated
outcome (`Except.error` = the outer `except` re-raises, line 162), the
logged final summary (line 158) if reached, and the attempted effects. -/
structure SyncResult where
  outcome : Except String Unit
  summary : Option (Nat × Nat)
  downloads : List String
  reencodes : List Nat
  uploads : List (String × Nat)

/-- `PlaylistArtSync.sync_artwork` (lines 112-162): fetch both listings
(aborting on failure), build `spotify_dict`, run the per-playlist loop,
and report the final counts. -/
def sync_artwork (threshold : Nat) (env : SyncEnv) : SyncResult :=
  match env.applePlaylists with
  | .error e => ⟨.error e, none, [], [], []⟩
  | .ok apple_playlists =>
    match env.spotifyPlaylists with
    | .error e => ⟨.error e, none, [], [], []⟩
    | .ok spotify_playlists =>
      let spotify_dict := buildDict spotify_playlists
      let r := syncLoop threshold env spotify_dict apple_playlists
        ⟨0, 0, [], [], []⟩
      ⟨.ok (), some (r.success_count, r.fail_count),
       r.downloads, r.reencodes, r.uploads⟩

/-- The methods defined on the `PlaylistArtSync` class (lines 20-162);
notably, neither `get_apple_music_playlists` nor `get_spotify_playlists`
is among them, so the calls on lines 115-116 raise `AttributeError`. -/
def playlistArtSyncMethods : List String :=
  ["__init__", "_init_spotify_client", "_init_apple_client",
   "find_matching_playlist", "download_playlist_artwork", "sync_artwork"]

lemma syncLoop_eq (threshold : Nat) (env : SyncEnv)
    (dict : List (String × String)) :
    ∀ (ps : List ApplePlaylist) (st : RunState),
      syncLoop threshold env dict ps st =
        ⟨st.success_count +
            ps.countP (fun q => (processItem threshold env dict q).ok),
         st.fail_count +
            ps.countP (fun q => !(processItem threshold env dict q).ok),
         st.downloads ++
            ps.flatMap (fun q => (processItem threshold env dict q).downloads),
         st.reencodes ++
            ps.flatMap (fun q => (processItem threshold env dict q).reencodes),
         st.uploads ++
            ps.flatMap (fun q => (processItem threshold env dict q).uploads)⟩ := by
  intro ps
  induction ps with
  | nil =>
    intro st
    obtain ⟨a, b, c, d, e⟩ := st
    simp [syncLoop]
  | cons p rest ih =>
    intro st
    show syncLoop threshold env dict rest (stepItem threshold env dict st p) = _
    rw [ih]
    obtain ⟨a, b, c, d, e⟩ := st
    simp only [stepItem, List.countP_cons, List.flatMap_cons, List.append_assoc]
    by_cases h : (processItem threshold env dict p).ok <;> simp [h] <;> omega

lemma sync_artwork_apple_error (threshold : Nat) (env : SyncEnv) (e : String)
    (h : env.applePlaylists = .error e) :
    sync_artwork threshold env = ⟨.error e, none, [], [], []⟩ := by
  simp only [sync_artwork, h]

lemma sync_artwork_spotify_error (threshold : Nat) (env : SyncEnv) (e : String)
    (aps : List ApplePlaylist) (ha : env.applePlaylists = .ok aps)
    (hs : env.spotifyPlaylists = .error e) :
    sync_artwork threshold env = ⟨.error e, none, [], [], []⟩ := by
  simp only [sync_artwork, ha, hs]

lemma sync_artwork_ok (threshold : Nat) (env : SyncEnv)
    (aps : List ApplePlaylist) (sps : List (String × String))
    (ha : env.applePlaylists = .ok aps)
    (hs : env.spotifyPlaylists = .ok sps) :
    sync_artwork threshold env =
      ⟨.ok (),
       some (aps.countP
          (fun q => (processItem threshold env (buildDict sps) q).ok),
        aps.countP
          (fun q => !(processItem threshold env (buildDict sps) q).ok)),
       aps.flatMap
         (fun q => (processItem threshold env (buildDict sps) q).downloads),
       aps.flatMap
         (fun q => (processItem threshold env (buildDict sps) q).reencodes),
       aps.flatMap
         (fun q => (processItem threshold env (buildDict sps) q).uploads)⟩ := by
  simp only [sync_artwork, ha, hs]
  rw [syncLoop_eq]
  simp

lemma countP_bool_partition {α : Type} (f : α → Bool) (l : List α) :
    l.countP f + l.countP (fun a => !(f a)) = l.length := by
  induction l with
  | nil => simp
  | cons a l ih =>
    simp only [List.countP_cons, List.length_cons]
    by_cases h : f a <;> simp [h] <;> omega

/-- Claim C4: if fetching the initial playlist listing from the source
(Apple) or target (Spotify) service fails, `sync_artwork` aborts the run
immediately and propagates the failure: the error is re-raised, no summary
counters are accumulated or reported, and no artwork is downloaded,
re-encoded or uploaded. -/
theorem sync_listing_failure_aborts (threshold : Nat) (env : SyncEnv)
    (e : String) :
    (env.applePlaylists = .error e →
      sync_artwork threshold env = ⟨.error e, none, [], [], []⟩)
    ∧ (∀ aps, env.applePlaylists = .ok aps →
        env.spotifyPlaylists = .error e →
        sync_artwork threshold env = ⟨.error e, none, [], [], []⟩) :=
  ⟨fun h => sync_artwork_apple_error threshold env e h,
   fun aps ha hs => sync_artwork_spotify_error threshold env e aps ha hs⟩

/-- Concrete environment whose Apple listing fetch fails. -/
def envAppleError : SyncEnv :=
  ⟨.error "listing fetch failed", .ok [], fun _ _ => AttemptOutcome.transient,
   fun i => some i, fun _ _ => true⟩

/-- Concrete environment whose Spotify listing fetch fails. -/
def envSpotifyError : SyncEnv :=
  ⟨.ok [⟨"a", some "u"⟩], .error "listing fetch failed",
   fun _ _ => AttemptOutcome.transient, fun i => some i, fun _ _ => true⟩

/-- Witness for `sync_listing_failure_aborts` at concrete environments. -/
theorem sync_listing_failure_aborts_witness :
    sync_artwork 85 envAppleError =
      ⟨.error "listing fetch failed", none, [], [], []⟩ ∧
    sync_artwork 85 envSpotifyError =
      ⟨.error "listing fetch failed", none, [], [], []⟩ :=
  ⟨(sync_listing_failure_aborts 85 envAppleError "listing fetch failed").1 rfl,
   (sync_listing_failure_aborts 85 envSpotifyError "listing fetch failed").2
     [⟨"a", some "u"⟩] rfl rfl⟩

/-- Claim C9: the accessors `get_apple_music_playlists` and
`get_spotify_playlists` invoked on lines 115-116 are not defined anywhere
in the `PlaylistArtSync` class, so on an instance as defined the listing
fetch raises (`AttributeError`), and `sync_artwork` re-raises that error to
the caller with no summary and nothing attempted. -/
theorem sync_missing_getters :
    ("get_apple_music_playlists" ∉ playlistArtSyncMethods ∧
     "get_spotify_playlists" ∉ playlistArtSyncMethods)
    ∧ ∀ (threshold : Nat) (env : SyncEnv) (e : String),
        env.applePlaylists = .error e →
        sync_artwork threshold env = ⟨.error e, none, [], [], []⟩ := by
  refine ⟨by decide, ?_⟩
  intro threshold env e h
  exact sync_artwork_apple_error threshold env e h

/-- Witness for `sync_missing_getters` at a concrete environment. -/
theorem sync_missing_getters_witness :
    sync_artwork 85 envAppleError =
      ⟨.error "listing fetch failed", none, [], [], []⟩ :=
  sync_missing_getters.2 85 envAppleError "listing fetch failed" rfl

/-- Claim C3: in a run whose listing fetches succeed, a failing item `p`
(for any recoverable reason: `processItem` reports failure) is caught at
the item boundary: the run still completes normally (`.ok`), `p`
contributes exactly one `fail_count` increment, and the items before and
after `p` are attempted and counted independently of `p`'s failure. -/
theorem sync_item_isolation (threshold : Nat) (env : SyncEnv)
    (aps pre post : List ApplePlaylist) (p : ApplePlaylist)
    (sps : List (String × String))
    (ha : env.applePlaylists = .ok aps)
    (hs : env.spotifyPlaylists = .ok sps)
    (hsplit : aps = pre ++ p :: post)
    (hfail : (processItem threshold env (buildDict sps) p).ok = false) :
    (sync_artwork threshold env).outcome = .ok () ∧
    (sync_artwork threshold env).summary = some
      (pre.countP (fun q => (processItem threshold env (buildDict sps) q).ok) +
        post.countP (fun q => (processItem threshold env (buildDict sps) q).ok),
       pre.countP
          (fun q => !(processItem threshold env (buildDict sps) q).ok) +
        (1 + post.countP
          (fun q => !(processItem threshold env (buildDict sps) q).ok))) := by
  rw [sync_artwork_ok threshold env aps sps ha hs]
  subst hsplit
  refine ⟨rfl, ?_⟩
  simp only [List.countP_append, List.countP_cons, hfail, Bool.not_false,
    Option.some.injEq, Prod.mk.injEq]
  constructor <;> simp <;> omega

/-- Concrete environment for the run witnesses: Apple playlists `"a"`
(unmatched) and `"b"` (matched and fully synced), Spotify playlist
`("b", "x")`, downloads succeeding at once with image 5. -/
def envIsolation : SyncEnv :=
  ⟨.ok [⟨"a", some "u"⟩, ⟨"b", some "u"⟩], .ok [("b", "x")],
   fun _ _ => AttemptOutcome.success 5, fun i => some i, fun _ _ => true⟩

/-- Witness for `sync_item_isolation`: item `"a"` fails (no match) yet the
following item `"b"` is still processed and succeeds. -/
theorem sync_item_isolation_witness :
    (sync_artwork 85 envIsolation).outcome = .ok () ∧
    (sync_artwork 85 envIsolation).summary = some (1, 1) := by
  have h := sync_item_isolation 85 envIsolation
    [⟨"a", some "u"⟩, ⟨"b", some "u"⟩] [] [⟨"b", some "u"⟩] ⟨"a", some "u"⟩
    [("b", "x")] rfl rfl rfl (by decide)
  exact ⟨h.1, h.2.trans (by decide)⟩

/-- Claim C5: a source playlist whose name the matcher resolves to `none`
is recorded as a failure (`fail_count` +1, `success_count` unchanged) and
the run continues with the remaining playlists; no artwork download,
re-encode or upload is attempted for that item. -/
theorem sync_no_match_skips (threshold : Nat) (env : SyncEnv)
    (aps pre post : List ApplePlaylist) (p : ApplePlaylist)
    (sps : List (String × String))
    (ha : env.applePlaylists = .ok aps)
    (hs : env.spotifyPlaylists = .ok sps)
    (hsplit : aps = pre ++ p :: post)
    (hnm : find_matching_playlist threshold p.name (buildDict sps) = none) :
    processItem threshold env (buildDict sps) p = ⟨false, [], [], []⟩ ∧
    (sync_artwork threshold env).summary = some
      (pre.countP (fun q => (processItem threshold env (buildDict sps) q).ok) +
        post.countP (fun q => (processItem threshold env (buildDict sps) q).ok),
       pre.countP
          (fun q => !(processItem threshold env (buildDict sps) q).ok) +
        (1 + post.countP
          (fun q => !(processItem threshold env (buildDict sps) q).ok))) ∧
    (sync_artwork threshold env).downloads =
      pre.flatMap
        (fun q => (processItem threshold env (buildDict sps) q).downloads) ++
      post.flatMap
        (fun q => (processItem threshold env (buildDict sps) q).downloads) ∧
    (sync_artwork threshold env).reencodes =
      pre.flatMap
        (fun q => (processItem threshold env (buildDict sps) q).reencodes) ++
      post.flatMap
        (fun q => (processItem threshold env (buildDict sps) q).reencodes) ∧
    (sync_artwork threshold env).uploads =
      pre.flatMap
        (fun q => (processItem threshold env (buildDict sps) q).uploads) ++
      post.flatMap
        (fun q => (processItem threshold env (buildDict sps) q).uploads) := by
  have hpi : processItem threshold env (buildDict sps) p = ⟨false, [], [], []⟩ := by
    simp only [processItem, hnm]
  rw [sync_artwork_ok threshold env aps sps ha hs]
  subst hsplit
  refine ⟨hpi, ?_, ?_, ?_, ?_⟩
  · simp only [List.countP_append, List.countP_cons, hpi, Bool.not_false,
      Option.some.injEq, Prod.mk.injEq]
    constructor <;> simp <;> omega
  · simp [List.flatMap_append, hpi]
  · simp [List.flatMap_append, hpi]
  · simp [List.flatMap_append, hpi]

/-- Witness for `sync_no_match_skips`: in `envIsolation`, item `"a"` has no
match; only the second item's download and upload occur. -/
theorem sync_no_match_skips_witness :
    processItem 85 envIsolation (buildDict [("b", "x")]) ⟨"a", some "u"⟩ =
      ⟨false, [], [], []⟩ ∧
    (sync_artwork 85 envIsolation).summary = some (1, 1) ∧
    (sync_artwork 85 envIsolation).downloads = ["u"] ∧
    (sync_artwork 85 envIsolation).reencodes = [5] ∧
    (sync_artwork 85 envIsolation).uploads = [("x", 5)] := by
  have h := sync_no_match_skips 85 envIsolation
    [⟨"a", some "u"⟩, ⟨"b", some "u"⟩] [] [⟨"b", some "u"⟩] ⟨"a", some "u"⟩
    [("b", "x")] rfl rfl rfl (by decide)
  exact ⟨h.1, h.2.1.trans (by decide), h.2.2.1.trans (by decide),
    h.2.2.2.1.trans (by decide), h.2.2.2.2.trans (by decide)⟩

/-- Claim C8: a matched source playlist with no artwork URL is treated as a
recoverable failure: accessing the missing key raises, the item-level
handler records one `fail_count` increment, no upload (indeed no download
or re-encode) is attempted for the item, and the run continues with the
remaining playlists. -/
theorem sync_no_artwork_url_fails (threshold : Nat) (env : SyncEnv)
    (aps pre post : List ApplePlaylist) (p : ApplePlaylist) (pid : String)
    (sps : List (String × String))
    (ha : env.applePlaylists = .ok aps)
    (hs : env.spotifyPlaylists = .ok sps)
    (hsplit : aps = pre ++ p :: post)
    (hm : find_matching_playlist threshold p.name (buildDict sps) = some pid)
    (hpid : pid ≠ "") (hurl : p.artwork_url = none) :
    processItem threshold env (buildDict sps) p = ⟨false, [], [], []⟩ ∧
    (sync_artwork threshold env).outcome = .ok () ∧
    (sync_artwork threshold env).summary = some
      (pre.countP (fun q => (processItem threshold env (buildDict sps) q).ok) +
        post.countP (fun q => (processItem threshold env (buildDict sps) q).ok),
       pre.countP
          (fun q => !(processItem threshold env (buildDict sps) q).ok) +
        (1 + post.countP
          (fun q => !(processItem threshold env (buildDict sps) q).ok))) ∧
    (sync_artwork threshold env).uploads =
      pre.flatMap
        (fun q => (processItem threshold env (buildDict sps) q).uploads) ++
      post.flatMap
        (fun q => (processItem threshold env (buildDict sps) q).uploads) := by
  have hpi : processItem threshold env (buildDict sps) p = ⟨false, [], [], []⟩ := by
    simp only [processItem, hm, hurl, if_neg hpid]
  rw [sync_artwork_ok threshold env aps sps ha hs]
  subst hsplit
  refine ⟨hpi, rfl, ?_, ?_⟩
  · simp only [List.countP_append, List.countP_cons, hpi, Bool.not_false,
      Option.some.injEq, Prod.mk.injEq]
    constructor <;> simp <;> omega
  · simp [List.flatMap_append, hpi]

/-- Concrete environment where the only Apple playlist matches but has no
artwork URL. -/
def envNoArtwork : SyncEnv :=
  ⟨.ok [⟨"b", none⟩], .ok [("b", "x")],
   fun _ _ => AttemptOutcome.success 5, fun i => some i, fun _ _ => true⟩

/-- Witness for `sync_no_artwork_url_fails` at a concrete environment. -/
theorem sync_no_artwork_url_fails_witness :
    processItem 85 envNoArtwork (buildDict [("b", "x")]) ⟨"b", none⟩ =
      ⟨false, [], [], []⟩ ∧
    (sync_artwork 85 envNoArtwork).outcome = .ok () ∧
    (sync_artwork 85 envNoArtwork).summary = some (0, 1) ∧
    (sync_artwork 85 envNoArtwork).uploads = [] := by
  have h := sync_no_artwork_url_fails 85 envNoArtwork [⟨"b", none⟩] [] []
    ⟨"b", none⟩ "x" [("b", "x")] rfl rfl rfl (by decide) (by decide) rfl
  exact ⟨h.1, h.2.1, h.2.2.1.trans (by decide), h.2.2.2.trans (by decide)⟩

/-- Claim C10: in every run that reaches the per-item loop, each iteration
increments exactly one of the two counters by exactly one, so the reported
summary satisfies `success_count + fail_count = number of source
playlists`. -/
theorem sync_counts_partition (threshold : Nat) (env : SyncEnv)
    (aps : List ApplePlaylist) (sps : List (String × String))
    (ha : env.applePlaylists = .ok aps)
    (hs : env.spotifyPlaylists = .ok sps) :
    (∀ (dict : List (String × String)) (st : RunState) (p : ApplePlaylist),
      (stepItem threshold env dict st p).success_count +
          (stepItem threshold env dict st p).fail_count =
        st.success_count + st.fail_count + 1) ∧
    (∀ s f, (sync_artwork threshold env).summary = some (s, f) →
      s + f = aps.length) := by
  constructor
  · intro dict st p
    simp only [stepItem]
    by_cases h : (processItem threshold env dict p).ok <;> simp [h] <;> omega
  · intro s f h
    rw [sync_artwork_ok threshold env aps sps ha hs] at h
    simp only [Option.some.injEq, Prod.mk.injEq] at h
    obtain ⟨h1, h2⟩ := h
    rw [← h1, ← h2]
    exact countP_bool_partition _ aps

/-- Witness for `sync_counts_partition`: the two-playlist run of
`envIsolation` reports `1 + 1 = 2` items, and one loop step adds exactly
one to the combined counters. -/
theorem sync_counts_partition_witness :
    1 + 1 = ([⟨"a", some "u"⟩, ⟨"b", some "u"⟩] : List ApplePlaylist).length ∧
    (stepItem 85 envIsolation [] ⟨0, 0, [], [], []⟩ ⟨"a", some "u"⟩).success_count +
        (stepItem 85 envIsolation [] ⟨0, 0, [], [], []⟩ ⟨"a", some "u"⟩).fail_count =
      0 + 0 + 1 := by
  have h := sync_counts_partition 85 envIsolation
    [⟨"a", some "u"⟩, ⟨"b", some "u"⟩] [("b", "x")] rfl rfl
  refine ⟨h.2 1 1 ?_, h.1 [] ⟨0, 0, [], [], []⟩ ⟨"a", some "u"⟩⟩
  decide
